import Mathlib

/-!
Shallow embedding of the curtain-quotation calculator in `src/TJM_app.py`.

Money amounts and measurements are modelled as rationals (`ℚ`); Python's
built-in `round` (banker's rounding, half to even) is `roundHalfEven`;
`round(x, 2)` is `round2`.  A BOM parameter cell is modelled as
`Option ℚ`: `none` stands for a missing/empty/unparseable string, for
which `_safe_float` returns the rule's default.  Python's
`ZeroDivisionError` on `(ancho*mult)/paso` and the `st.stop()` abort on
an unsupported rule are modelled as `Except` errors.  String dispatch on
supply names (`.upper()`, `.startswith`) is modelled by `pyUpper` and
`pyStartsWith` over Lean strings.
-/

namespace TJM

/-- Python `round` on rationals: round half to even (banker's rounding). -/
def roundHalfEven (x : ℚ) : ℤ :=
  let n : ℤ := ⌊x⌋
  let f : ℚ := x - n
  if f < 1/2 then n
  else if 1/2 < f then n + 1
  else if n % 2 = 0 then n else n + 1

/-- Python `round(x, 2)` on rationals: banker's rounding at two decimals. -/
def round2 (x : ℚ) : ℚ := ((roundHalfEven (x * 100) : ℤ) : ℚ) / 100

/-- TJM_app.py lines 26-28: `n = math.ceil(x); return n if n % 2 == 0 else n + 1`. -/
def ceil_to_even (x : ℚ) : ℤ :=
  let n : ℤ := ⌈x⌉
  if n % 2 = 0 then n else n + 1

/-- TJM_app.py line 52. -/
def IVA_PERCENT : ℚ := 19/100

/-- TJM_app.py line 53. -/
def DISTANCIA_BOTON_DEF : ℚ := 20/100

/-- TJM_app.py line 54. -/
def DISTANCIA_OJALES_DEF : ℚ := 14/100

/-- Python `str.upper()` (ASCII model, as used for supply-name dispatch). -/
def pyUpper (s : String) : String := String.mk (s.data.map Char.toUpper)

/-- Python `str.startswith(p)`. -/
def pyStartsWith (s p : String) : Bool := p.data.isPrefixOf s.data

/-- One BOM row for a design, as normalized by `load_bom_from_excel`
(lines 112-129): `Insumo` stripped, `Unidad` and `ReglaCantidad` upper-cased,
`Parametro` a normalized string here modelled as `Option ℚ` (`none` =
missing/empty/unparseable, i.e. `_safe_float` falls back to the default). -/
structure BomItem where
  insumo : String
  unidad : String
  regla : String
  parametro : Option ℚ
  dependeDeSeleccion : Bool
  deriving Repr, DecidableEq

/-- One chosen accessory option, as stored in `st.session_state.insumos_seleccion`
(line 709): reference, color, unit price and catalog unit. -/
structure Seleccion where
  ref : String
  color : String
  pvp : ℚ
  unidad : String
  deriving Repr, DecidableEq

/-- The session-state inputs read by `calcular_y_mostrar_cotizacion`
(lines 713-718, 746-764, 777-785): measurements, chosen design and
multiplier, fabric prices from the fabric pickers, the accessory
selection map, and the design's labor price `PRECIOS_MANO_DE_OBRA` entry
(`none` when the design has no `M.O:` key). -/
structure CurtainInput where
  diseno : String
  ancho : ℚ
  alto : ℚ
  multiplicador : ℚ
  numCortinas : ℤ
  refTela1 : String
  colorTela1 : String
  pvpTela1 : ℚ
  refTela2 : String
  colorTela2 : String
  pvpTela2 : ℚ
  insumosSeleccion : String → Option Seleccion
  moPvp : Option ℚ

/-- Failure modes of the calculation: Python's `ZeroDivisionError` in the
eyelet/button rules, and the `st.error`+`st.stop` abort on an unsupported
`ReglaCantidad` (line 741-742). -/
inductive CalcError where
  | divisionPorCero
  | reglaNoSoportada
  deriving Repr, DecidableEq

/-- Rule evaluation, TJM_app.py lines 729-742: maps a `ReglaCantidad`
string, a parameter and the curtain geometry to a per-unit quantity. -/
def evalRegla (regla : String) (param : Option ℚ) (ancho mult : ℚ) :
    Except CalcError ℚ :=
  if regla = "MT_ANCHO_X_MULT" then
    .ok (ancho * mult * param.getD 1)
  else if regla = "UND_OJALES_PAR" then
    let paso := param.getD DISTANCIA_OJALES_DEF
    if paso = 0 then .error .divisionPorCero
    else .ok ((ceil_to_even ((ancho * mult) / paso) : ℤ) : ℚ)
  else if regla = "UND_BOTON_PAR" then
    let paso := param.getD DISTANCIA_BOTON_DEF
    if paso = 0 then .error .divisionPorCero
    else .ok ((ceil_to_even ((ancho * mult) / paso) : ℤ) : ℚ)
  else if regla = "FIJO" then
    .ok (param.getD 0)
  else
    .error .reglaNoSoportada

/-- One row of `detalle_insumos` (lines 769-775 and 788-794): display name,
unit, displayed quantity (2 decimals for continuous units, whole number for
`UND`), unrounded unit price, and rounded line total. -/
structure PricedLine where
  insumo : String
  unidad : String
  cantidad : ℚ
  pvpUnit : ℚ
  precio : ℤ
  deriving Repr, DecidableEq

/-- Builds a `detalle_insumos` row (lines 769-775): the displayed quantity
is `round(cantidad_total, 2)` unless the unit is `UND`, in which case it is
`int(round(cantidad_total))`; the stored price is `round(pvp * cantidad_total)`;
the unit price is stored unrounded. -/
def mkLinea (nombre uni : String) (cantidadTotal pvp : ℚ) : PricedLine :=
  { insumo := nombre
    unidad := uni
    cantidad := if uni = "UND" then ((roundHalfEven cantidadTotal : ℤ) : ℚ)
                else round2 cantidadTotal
    pvpUnit := pvp
    precio := roundHalfEven (pvp * cantidadTotal) }

/-- The unit price resolved for a BOM item (lines 746-764): fabric slots
take the session fabric price, anything else reads the accessory selection
map and soft-fails to 0 when no selection exists. -/
def precioResuelto (inp : CurtainInput) (item : BomItem) : ℚ :=
  let nombre := pyUpper item.insumo
  if nombre = "TELA 1" then inp.pvpTela1
  else if nombre = "TELA 2" then inp.pvpTela2
  else
    match inp.insumosSeleccion item.insumo with
    | some s => s.pvp
    | none => 0

/-- One iteration of the BOM loop (lines 723-775): evaluates the rule,
scales by the curtain count, and resolves name/unit/price by supply-name
dispatch.  Returns `none` for skipped `M.O*` items, otherwise the detail
row paired with the unrounded `precio_total` added to the running subtotal. -/
def resolverLinea (inp : CurtainInput) (item : BomItem) :
    Except CalcError (Option (PricedLine × ℚ)) :=
  match evalRegla item.regla item.parametro inp.ancho inp.multiplicador with
  | .error e => .error e
  | .ok cantidad =>
    let cantidadTotal := cantidad * (inp.numCortinas : ℚ)
    let nombre := pyUpper item.insumo
    if nombre = "TELA 1" then
      let shown := "TELA 1: " ++ inp.refTela1 ++ " - " ++ inp.colorTela1
      .ok (some (mkLinea shown "MT" cantidadTotal inp.pvpTela1,
                 inp.pvpTela1 * cantidadTotal))
    else if nombre = "TELA 2" then
      let shown := "TELA 2: " ++ inp.refTela2 ++ " - " ++ inp.colorTela2
      .ok (some (mkLinea shown "MT" cantidadTotal inp.pvpTela2,
                 inp.pvpTela2 * cantidadTotal))
    else if pyStartsWith nombre "M.O" then
      .ok none
    else
      let sel := inp.insumosSeleccion item.insumo
      let pvp := match sel with | some s => s.pvp | none => 0
      let uni := match sel with | some s => s.unidad | none => item.unidad
      .ok (some (mkLinea item.insumo uni cantidadTotal pvp, pvp * cantidadTotal))

/-- The whole BOM loop, in catalog order: the produced detail rows each
paired with their unrounded contribution to the running subtotal.  Any rule
failure aborts the whole calculation, as `st.stop`/an uncaught exception do. -/
def procesarBOM (inp : CurtainInput) :
    List BomItem → Except CalcError (List (PricedLine × ℚ))
  | [] => .ok []
  | item :: rest =>
    match resolverLinea inp item with
    | .error e => .error e
    | .ok none => procesarBOM inp rest
    | .ok (some par) =>
      match procesarBOM inp rest with
      | .error e => .error e
      | .ok pares => .ok (par :: pares)

/-- The labor-line guard (line 783): the design has a labor-price entry and
its `_safe_float`ed price is strictly positive. -/
def aplicaMO (inp : CurtainInput) : Bool :=
  match inp.moPvp with
  | some p => decide (0 < p)
  | none => false

/-- Labor quantity (line 784): `ancho * multiplicador * num_cortinas`. -/
def cantMO (inp : CurtainInput) : ℚ :=
  inp.ancho * inp.multiplicador * (inp.numCortinas : ℚ)

/-- The labor detail row (lines 784-794).  Note that, unlike BOM rows, its
rounded total `precio_mo = round(cant_mo * pvp_mo)` is also the amount added
to the running subtotal. -/
def lineaMO (inp : CurtainInput) : PricedLine :=
  { insumo := "M.O: " ++ inp.diseno
    unidad := "MT"
    cantidad := round2 (cantMO inp)
    pvpUnit := inp.moPvp.getD 0
    precio := roundHalfEven (cantMO inp * inp.moPvp.getD 0) }

/-- The value of the running `subtotal` variable right before tax (line 796):
the sum of the unrounded BOM `precio_total`s, plus the rounded labor total
when the labor line applies. -/
def subtotalBruto (inp : CurtainInput) (bom : List BomItem) :
    Except CalcError ℚ :=
  match procesarBOM inp bom with
  | .error e => .error e
  | .ok pares =>
    .ok (if aplicaMO inp
         then (pares.map Prod.snd).sum + ((lineaMO inp).precio : ℚ)
         else (pares.map Prod.snd).sum)

/-- The stored result of one calculation, `st.session_state.cortina_calculada`
(line 822-829), restricted to the priced fields the claims are about: the
detail rows and the stored `subtotal` (= `subtotal_sin_iva`), `iva`, `total`. -/
structure PricedCurtain where
  detalle : List PricedLine
  subtotal : ℤ
  iva : ℤ
  total : ℤ
  deriving Repr, DecidableEq

/-- The calculator `calcular_y_mostrar_cotizacion` (lines 713-829): runs the
BOM loop, appends the labor line when it applies, then computes
`iva = round(subtotal * IVA_PERCENT)`, `total = round(subtotal)`, and stores
`subtotal_sin_iva = total - iva` in the `subtotal` field. -/
def calcularCotizacion (inp : CurtainInput) (bom : List BomItem) :
    Except CalcError PricedCurtain :=
  match procesarBOM inp bom with
  | .error e => .error e
  | .ok pares =>
    let det := pares.map Prod.fst
    let sub := (pares.map Prod.snd).sum
    let det2 := if aplicaMO inp then det ++ [lineaMO inp] else det
    let sub2 := if aplicaMO inp then sub + ((lineaMO inp).precio : ℚ) else sub
    let iva := roundHalfEven (sub2 * IVA_PERCENT)
    let total := roundHalfEven sub2
    .ok { detalle := det2, subtotal := total - iva, iva := iva, total := total }

/-- The aggregation performed by `generar_pdf_cotizacion` (lines 470-472):
componentwise sums of the stored `subtotal`, `iva` and `total` fields, in
loop order. -/
def totalesPdf (cs : List PricedCurtain) : ℤ × ℤ × ℤ :=
  (cs.foldl (fun a c => a + c.subtotal) 0,
   cs.foldl (fun a c => a + c.iva) 0,
   cs.foldl (fun a c => a + c.total) 0)

/-- The aggregation performed by `pantalla_resumen` (lines 922-924):
`total_final = sum(c['total'])`, then `iva = total_final * IVA_PERCENT` and
`subtotal = total_final - iva` are recomputed from the aggregate total. -/
def totalesResumen (cs : List PricedCurtain) : ℚ × ℚ × ℤ :=
  let totalFinal : ℤ := cs.foldl (fun a c => a + c.total) 0
  ((totalFinal : ℚ) - (totalFinal : ℚ) * IVA_PERCENT,
   (totalFinal : ℚ) * IVA_PERCENT,
   totalFinal)

/-- Modelled from the spec (§4.4 step 3): the canonical tax-inclusive
formula the spec recommends, `tax = round(total × taxRate / (1 + taxRate))`
backed out of the already-rounded total.  This definition follows the
spec's words and is compared against the code's `iva`. -/
def ivaCanonicoSpec (total : ℤ) : ℤ :=
  roundHalfEven ((total : ℚ) * IVA_PERCENT / (1 + IVA_PERCENT))

/-- Tests whether a detail row is a labor line, by the same prefix test the
BOM loop uses to skip labor rows (line 758). -/
def esMO (l : PricedLine) : Bool := pyStartsWith (pyUpper l.insumo) "M.O"

/-- An empty accessory-selection map: the user has selected nothing. -/
def sinSeleccion : String → Option Seleccion := fun _ => none

/-- Concrete session input for witnesses: 1 m window, multiplier 1, one
curtain, no fabric price, no accessory selections, labor price 100. -/
def inpBase : CurtainInput :=
  { diseno := "PANEL", ancho := 1, alto := 1, multiplicador := 1
    numCortinas := 1
    refTela1 := "R1", colorTela1 := "AZUL", pvpTela1 := 0
    refTela2 := "", colorTela2 := "", pvpTela2 := 0
    insumosSeleccion := sinSeleccion, moPvp := some 100 }

/-- Like `inpBase` but with labor price 10, so that the rounded tax (2)
differs from `total * IVA_PERCENT` (1.9). -/
def inpResumen : CurtainInput := { inpBase with moPvp := some 10 }

/-- Like `inpBase` but with a 1.5 m window and labor price 1, so that the
labor product 1.5 is not an integer before rounding. -/
def inpMedio : CurtainInput := { inpBase with ancho := 3/2, moPvp := some 1 }

/-- A concrete accessory BOM row flagged as requiring a user selection. -/
def itemCenefa : BomItem :=
  { insumo := "CENEFA", unidad := "UND", regla := "FIJO"
    parametro := some 3, dependeDeSeleccion := true }

/-- The calculator's output on `inpBase` with an empty BOM. -/
def pcBase : PricedCurtain :=
  { detalle := [lineaMO inpBase], subtotal := 81, iva := 19, total := 100 }

/-- The calculator's output on `inpResumen` with an empty BOM. -/
def pcResumen : PricedCurtain :=
  { detalle := [lineaMO inpResumen], subtotal := 8, iva := 2, total := 10 }

theorem roundHalfEven_intCast (n : ℤ) : roundHalfEven (n : ℚ) = n := by
  simp only [roundHalfEven, Int.floor_intCast]
  norm_num

theorem roundHalfEven_zero : roundHalfEven 0 = 0 := by
  simpa using roundHalfEven_intCast 0

theorem pyStartsWith_mo_tela1 (r c : String) :
    pyStartsWith (pyUpper ("TELA 1: " ++ r ++ " - " ++ c)) "M.O" = false := rfl

theorem pyStartsWith_mo_tela2 (r c : String) :
    pyStartsWith (pyUpper ("TELA 2: " ++ r ++ " - " ++ c)) "M.O" = false := rfl

theorem pyStartsWith_mo_mo (d : String) :
    pyStartsWith (pyUpper ("M.O: " ++ d)) "M.O" = true := rfl

/-- C7: `ceil_to_even(x)` is even, is at least `x`, and is the smallest even
integer greater than or equal to `x` (round up to the nearest integer, then
add one if that integer is odd). -/
theorem c7_ceil_to_even_minimo_par :
    ∀ x : ℚ, Even (ceil_to_even x) ∧ x ≤ ((ceil_to_even x : ℤ) : ℚ) ∧
      ∀ m : ℤ, Even m → x ≤ (m : ℚ) → ceil_to_even x ≤ m := by
  intro x
  simp only [ceil_to_even]
  by_cases h : (⌈x⌉ : ℤ) % 2 = 0
  · rw [if_pos h]
    refine ⟨Int.even_iff.mpr h, Int.le_ceil x, ?_⟩
    intro m _ hm
    exact Int.ceil_le.mpr hm
  · rw [if_neg h]
    refine ⟨?_, ?_, ?_⟩
    · rw [Int.even_add_one]
      simpa [Int.even_iff] using h
    · calc x ≤ (⌈x⌉ : ℚ) := Int.le_ceil x
        _ ≤ ((⌈x⌉ + 1 : ℤ) : ℚ) := by push_cast; linarith
    · intro m hmEven hm
      have h1 : ⌈x⌉ ≤ m := Int.ceil_le.mpr hm
      have h2 : m % 2 = 0 := Int.even_iff.mp hmEven
      omega

theorem c7_testigo :
    Even (ceil_to_even (5 : ℚ)) ∧ ceil_to_even (5 : ℚ) ≤ 8 :=
  ⟨(c7_ceil_to_even_minimo_par 5).1,
   (c7_ceil_to_even_minimo_par 5).2.2 8 (by decide) (by norm_num)⟩

/-- C10: with a parameter that parses to 0 (for example the string "0"),
the eyelet and button rules divide by the zero spacing; in the source this
is an unguarded `(ancho * multiplicador) / paso` that raises
`ZeroDivisionError`, modelled here as the `divisionPorCero` error, so rule
evaluation is not total over all parameter strings. -/
theorem c10_division_por_cero :
    evalRegla "UND_OJALES_PAR" (some 0) 2 (9/5) = .error .divisionPorCero ∧
    evalRegla "UND_BOTON_PAR" (some 0) 2 (9/5) = .error .divisionPorCero := by
  constructor <;> simp [evalRegla]

/-- C6: for rule `UND_OJALES_PAR` the per-unit quantity is
`ceil_to_even((ancho*mult)/paso)` with `paso` the parameter when present
(and nonzero) and the default eyelet spacing 0.14 otherwise; in particular
width 2.0 and multiplier 1.8 with the default spacing give 26. -/
theorem c6_regla_ojales :
    DISTANCIA_OJALES_DEF = 14/100 ∧
    (∀ param : Option ℚ, ∀ w m : ℚ, param.getD DISTANCIA_OJALES_DEF ≠ 0 →
      evalRegla "UND_OJALES_PAR" param w m
        = .ok ((ceil_to_even ((w * m) / param.getD DISTANCIA_OJALES_DEF) : ℤ) : ℚ)) ∧
    evalRegla "UND_OJALES_PAR" none 2 (9/5) = .ok 26 := by
  refine ⟨rfl, ?_, ?_⟩
  · intro param w m hne
    simp [evalRegla, hne]
  · have hdiv : (2 * (9/5 : ℚ)) / (14/100) = 180/7 := by norm_num
    have hceil : ceil_to_even (180/7 : ℚ) = 26 := by
      simp only [ceil_to_even]
      rw [show ⌈(180/7 : ℚ)⌉ = 26 from by rw [Int.ceil_eq_iff]; constructor <;> norm_num]
      decide
    simp [evalRegla, DISTANCIA_OJALES_DEF, hdiv, hceil]

theorem c6_testigo :
    evalRegla "UND_OJALES_PAR" none 2 (9/5)
      = .ok ((ceil_to_even ((2 * (9/5 : ℚ)) / (none : Option ℚ).getD DISTANCIA_OJALES_DEF) : ℤ) : ℚ) :=
  c6_regla_ojales.2.1 none 2 (9/5) (by norm_num [DISTANCIA_OJALES_DEF])

theorem resolverLinea_ok_some (inp : CurtainInput) (item : BomItem)
    (l : PricedLine) (raw q : ℚ)
    (heval : evalRegla item.regla item.parametro inp.ancho inp.multiplicador = .ok q)
    (hres : resolverLinea inp item = .ok (some (l, raw))) :
    l = mkLinea l.insumo l.unidad (q * (inp.numCortinas : ℚ)) (precioResuelto inp item) ∧
    raw = precioResuelto inp item * (q * (inp.numCortinas : ℚ)) := by
  unfold resolverLinea at hres
  rw [heval] at hres
  unfold precioResuelto
  dsimp only at hres ⊢
  split_ifs at hres with hT1 hT2 hMO
  · rw [if_pos hT1]
    simp only [Except.ok.injEq, Option.some.injEq, Prod.mk.injEq] at hres
    obtain ⟨hl, hraw⟩ := hres
    subst hl
    exact ⟨rfl, hraw.symm⟩
  · rw [if_neg hT1, if_pos hT2]
    simp only [Except.ok.injEq, Option.some.injEq, Prod.mk.injEq] at hres
    obtain ⟨hl, hraw⟩ := hres
    subst hl
    exact ⟨rfl, hraw.symm⟩
  · exact absurd hres (by simp)
  · rw [if_neg hT1, if_neg hT2]
    simp only [Except.ok.injEq, Option.some.injEq, Prod.mk.injEq] at hres
    obtain ⟨hl, hraw⟩ := hres
    subst hl
    cases hsel : inp.insumosSeleccion item.insumo <;>
      simp only [hsel] at hraw ⊢ <;> exact ⟨rfl, hraw.symm⟩

theorem resolver_not_esMO (inp : CurtainInput) (item : BomItem)
    (l : PricedLine) (raw : ℚ)
    (hres : resolverLinea inp item = .ok (some (l, raw))) :
    esMO l = false := by
  unfold resolverLinea at hres
  cases heval : evalRegla item.regla item.parametro inp.ancho inp.multiplicador with
  | error e => rw [heval] at hres; exact absurd hres (by simp)
  | ok q =>
    rw [heval] at hres
    dsimp only at hres
    split_ifs at hres with hT1 hT2 hMO
    · simp only [Except.ok.injEq, Option.some.injEq, Prod.mk.injEq] at hres
      obtain ⟨hl, _⟩ := hres
      subst hl
      simpa [esMO, mkLinea] using pyStartsWith_mo_tela1 inp.refTela1 inp.colorTela1
    · simp only [Except.ok.injEq, Option.some.injEq, Prod.mk.injEq] at hres
      obtain ⟨hl, _⟩ := hres
      subst hl
      simpa [esMO, mkLinea] using pyStartsWith_mo_tela2 inp.refTela2 inp.colorTela2
    · exact absurd hres (by simp)
    · simp only [Except.ok.injEq, Option.some.injEq, Prod.mk.injEq] at hres
      obtain ⟨hl, _⟩ := hres
      subst hl
      simpa [esMO, mkLinea] using hMO

theorem procesarBOM_mem (inp : CurtainInput) (bom : List BomItem)
    (pares : List (PricedLine × ℚ)) (hp : procesarBOM inp bom = .ok pares) :
    ∀ par ∈ pares, ∃ item ∈ bom, resolverLinea inp item = .ok (some par) := by
  induction bom generalizing pares with
  | nil =>
    simp only [procesarBOM, Except.ok.injEq] at hp
    subst hp
    intro par hpar
    exact absurd hpar (by simp)
  | cons item rest ih =>
    unfold procesarBOM at hp
    cases hres : resolverLinea inp item with
    | error e => rw [hres] at hp; exact absurd hp (by simp)
    | ok o =>
      rw [hres] at hp
      cases o with
      | none =>
        intro par hpar
        obtain ⟨it, hit, h⟩ := ih pares hp par hpar
        exact ⟨it, by simp [hit], h⟩
      | some par0 =>
        cases hrec : procesarBOM inp rest with
        | error e => rw [hrec] at hp; exact absurd hp (by simp)
        | ok pares0 =>
          rw [hrec] at hp
          simp only [Except.ok.injEq] at hp
          subst hp
          intro par hpar
          rcases List.mem_cons.mp hpar with h | h
          · subst h
            exact ⟨item, by simp, hres⟩
          · obtain ⟨it, hit, hh⟩ := ih pares0 hrec par h
            exact ⟨it, by simp [hit], hh⟩

theorem roundHalfEven_3_2 : roundHalfEven (3/2) = 2 := by
  unfold roundHalfEven
  norm_num

theorem roundHalfEven_19_10 : roundHalfEven (19/10) = 2 := by
  unfold roundHalfEven
  norm_num

theorem roundHalfEven_1900_119 : roundHalfEven (1900/119) = 16 := by
  unfold roundHalfEven
  norm_num

theorem aplicaMO_some_pos (inp : CurtainInput) (p : ℚ) (hmo : inp.moPvp = some p)
    (hp : 0 < p) : aplicaMO inp = true := by
  simp [aplicaMO, hmo, hp]

theorem precioMO_eval (inp : CurtainInput) (p : ℚ) (n : ℤ) (hmo : inp.moPvp = some p)
    (h : cantMO inp * p = (n : ℚ)) : (lineaMO inp).precio = n := by
  simp only [lineaMO, hmo, Option.getD_some]
  rw [h, roundHalfEven_intCast]

theorem calc_vacio (inp : CurtainInput) (hm : aplicaMO inp = true) :
    calcularCotizacion inp []
      = .ok { detalle := [lineaMO inp],
              subtotal := roundHalfEven (((lineaMO inp).precio : ℚ))
                          - roundHalfEven (((lineaMO inp).precio : ℚ) * IVA_PERCENT),
              iva := roundHalfEven (((lineaMO inp).precio : ℚ) * IVA_PERCENT),
              total := roundHalfEven (((lineaMO inp).precio : ℚ)) } := by
  simp [calcularCotizacion, procesarBOM, hm]

theorem calc_inpBase : calcularCotizacion inpBase [] = .ok pcBase := by
  have hmo : inpBase.moPvp = some 100 := rfl
  have hm : aplicaMO inpBase = true := aplicaMO_some_pos inpBase 100 hmo (by norm_num)
  have hp : (lineaMO inpBase).precio = 100 :=
    precioMO_eval inpBase 100 100 hmo (by norm_num [cantMO, inpBase])
  rw [calc_vacio inpBase hm, hp]
  rw [show ((100 : ℤ) : ℚ) * IVA_PERCENT = ((19 : ℤ) : ℚ) from by
    norm_num [IVA_PERCENT]]
  rw [roundHalfEven_intCast, roundHalfEven_intCast]
  rfl

theorem calc_inpResumen : calcularCotizacion inpResumen [] = .ok pcResumen := by
  have hmo : inpResumen.moPvp = some 10 := rfl
  have hm : aplicaMO inpResumen = true := aplicaMO_some_pos inpResumen 10 hmo (by norm_num)
  have hp : (lineaMO inpResumen).precio = 10 :=
    precioMO_eval inpResumen 10 10 hmo (by norm_num [cantMO, inpResumen, inpBase])
  rw [calc_vacio inpResumen hm, hp]
  rw [show ((10 : ℤ) : ℚ) * IVA_PERCENT = (19/10 : ℚ) from by norm_num [IVA_PERCENT]]
  rw [roundHalfEven_intCast, roundHalfEven_19_10]
  rfl

theorem sub_inpBase : subtotalBruto inpBase [] = .ok 100 := by
  have hmo : inpBase.moPvp = some 100 := rfl
  have hm : aplicaMO inpBase = true := aplicaMO_some_pos inpBase 100 hmo (by norm_num)
  have hp : (lineaMO inpBase).precio = 100 :=
    precioMO_eval inpBase 100 100 hmo (by norm_num [cantMO, inpBase])
  simp [subtotalBruto, procesarBOM, hm, hp]

/-- C2: for every successfully calculated curtain, the stored net subtotal
plus the stored tax equals the stored total exactly, because the code sets
`subtotal_sin_iva = total - iva` in integer arithmetic. -/
theorem c2_subtotal_mas_iva_igual_total (inp : CurtainInput) (bom : List BomItem)
    (pc : PricedCurtain) (h : calcularCotizacion inp bom = .ok pc) :
    pc.subtotal + pc.iva = pc.total := by
  unfold calcularCotizacion at h
  cases hp : procesarBOM inp bom with
  | error e => rw [hp] at h; exact absurd h (by simp)
  | ok pares =>
    rw [hp] at h
    simp only [Except.ok.injEq] at h
    subst h
    simp only []
    omega

theorem c2_testigo : pcBase.subtotal + pcBase.iva = pcBase.total :=
  c2_subtotal_mas_iva_igual_total inpBase [] pcBase calc_inpBase

/-- C1 counterexample: on a curtain whose raw subtotal is 100 the code
stores `iva = round(100 * 0.19) = 19`, while the canonical tax-inclusive
formula of the claim gives `round(total * 0.19 / 1.19) = round(1900/119) = 16`,
so the code does not follow the claimed formula. -/
theorem c1_contraejemplo_iva :
    calcularCotizacion inpBase [] = .ok pcBase ∧
    pcBase.iva = 19 ∧ ivaCanonicoSpec pcBase.total = 16 ∧ (19 : ℤ) ≠ 16 := by
  refine ⟨calc_inpBase, rfl, ?_, by decide⟩
  unfold ivaCanonicoSpec
  rw [show ((pcBase.total : ℚ) * IVA_PERCENT / (1 + IVA_PERCENT)) = 1900/119 from by
    norm_num [pcBase, IVA_PERCENT]]
  exact roundHalfEven_1900_119

/-- C1 amended: the tax figures follow the tax-exclusive formula
`iva = round(subtotal * 0.19)` applied to the unrounded running subtotal,
with `total = round(subtotal)` and `netSubtotal = total - iva`; the tax is
not backed out of the tax-inclusive total. -/
theorem c1_formula_impuestos (inp : CurtainInput) (bom : List BomItem) (s : ℚ)
    (pc : PricedCurtain) (hs : subtotalBruto inp bom = .ok s)
    (h : calcularCotizacion inp bom = .ok pc) :
    pc.iva = roundHalfEven (s * IVA_PERCENT) ∧ pc.total = roundHalfEven s ∧
    pc.subtotal = pc.total - pc.iva := by
  unfold subtotalBruto at hs
  unfold calcularCotizacion at h
  cases hp : procesarBOM inp bom with
  | error e => rw [hp] at hs; exact absurd hs (by simp)
  | ok pares =>
    rw [hp] at hs h
    simp only [Except.ok.injEq] at hs h
    subst hs
    subst h
    exact ⟨rfl, rfl, rfl⟩

theorem c1_formula_impuestos_testigo :
    pcBase.iva = roundHalfEven (100 * IVA_PERCENT) ∧
    pcBase.total = roundHalfEven 100 ∧
    pcBase.subtotal = pcBase.total - pcBase.iva :=
  c1_formula_impuestos inpBase [] 100 pcBase sub_inpBase calc_inpBase

/-- C5 counterexample: on a curtain with window width 1.5, multiplier 1,
one unit and labor price 1, the labor product is 1.5 but the running
subtotal receives its rounded value 2, so the subtotal does not accumulate
the unrounded product of the labor line. -/
theorem c5_contraejemplo_subtotal :
    subtotalBruto inpMedio [] = .ok 2 ∧
    cantMO inpMedio * (inpMedio.moPvp.getD 0) = 3/2 ∧
    (2 : ℚ) ≠ 3/2 := by
  have hmo : inpMedio.moPvp = some 1 := rfl
  have hm : aplicaMO inpMedio = true := aplicaMO_some_pos inpMedio 1 hmo (by norm_num)
  have harg : cantMO inpMedio * (inpMedio.moPvp.getD 0) = 3/2 := by
    norm_num [cantMO, inpMedio, inpBase]
  have hp : (lineaMO inpMedio).precio = 2 := by
    simp only [lineaMO, hmo, Option.getD_some]
    rw [show cantMO inpMedio * 1 = 3/2 from by simpa [hmo] using harg]
    exact roundHalfEven_3_2
  refine ⟨?_, harg, by norm_num⟩
  simp [subtotalBruto, procesarBOM, hm, hp]

/-- C5 amended: each BOM line's stored total is the rounded product and the
running subtotal accumulates the unrounded products of the BOM lines, but
the labor line contributes its already-rounded total `round(cant_mo*pvp_mo)`
to the subtotal rather than the unrounded product. -/
theorem c5_subtotal_acumulacion :
    (∀ (inp : CurtainInput) (item : BomItem) (l : PricedLine) (raw q : ℚ),
      evalRegla item.regla item.parametro inp.ancho inp.multiplicador = .ok q →
      resolverLinea inp item = .ok (some (l, raw)) →
      raw = l.pvpUnit * (q * (inp.numCortinas : ℚ)) ∧
      l.precio = roundHalfEven raw) ∧
    (∀ (inp : CurtainInput) (bom : List BomItem) (pares : List (PricedLine × ℚ)),
      procesarBOM inp bom = .ok pares →
      subtotalBruto inp bom
        = .ok ((pares.map Prod.snd).sum
               + (if aplicaMO inp then ((lineaMO inp).precio : ℚ) else 0))) := by
  constructor
  · intro inp item l raw q heval hres
    obtain ⟨hl, hraw⟩ := resolverLinea_ok_some inp item l raw q heval hres
    have hpvp : l.pvpUnit = precioResuelto inp item := by
      rw [hl]; rfl
    constructor
    · rw [hraw, hpvp]
    · rw [hl]
      simp only [mkLinea]
      rw [hraw]
  · intro inp bom pares hp
    unfold subtotalBruto
    rw [hp]
    by_cases hm : aplicaMO inp <;> simp [hm]

theorem eval_cenefa :
    evalRegla itemCenefa.regla itemCenefa.parametro inpBase.ancho inpBase.multiplicador
      = .ok 3 := by
  simp [evalRegla, itemCenefa, inpBase]

theorem resolver_cenefa :
    resolverLinea inpBase itemCenefa
      = .ok (some ({ insumo := "CENEFA", unidad := "UND", cantidad := 3,
                     pvpUnit := 0, precio := 0 }, 0)) := by
  unfold resolverLinea
  rw [eval_cenefa]
  dsimp only
  rw [show pyUpper itemCenefa.insumo = "CENEFA" from by decide]
  rw [if_neg (by decide : ¬("CENEFA" : String) = "TELA 1")]
  rw [if_neg (by decide : ¬("CENEFA" : String) = "TELA 2")]
  rw [if_neg (by simp [show pyStartsWith "CENEFA" "M.O" = false from by decide])]
  have hsel : inpBase.insumosSeleccion itemCenefa.insumo = none := rfl
  rw [show itemCenefa.insumo = "CENEFA" from rfl, show itemCenefa.unidad = "UND" from rfl] at *
  simp only [hsel]
  have hc : roundHalfEven ((3 : ℚ) * ((inpBase.numCortinas : ℤ) : ℚ)) = 3 := by
    rw [show (3 : ℚ) * ((inpBase.numCortinas : ℤ) : ℚ) = ((3 : ℤ) : ℚ) from by
      norm_num [inpBase]]
    exact roundHalfEven_intCast 3
  simp [mkLinea, hc, roundHalfEven_zero]

/-- C5 witness: a concrete accessory line contributes its unrounded product
to the subtotal, and on `inpBase` the subtotal is the BOM sum plus the
rounded labor total. -/
theorem c5_testigo :
    ((0 : ℚ) = ({ insumo := "CENEFA", unidad := "UND", cantidad := 3,
                  pvpUnit := 0, precio := 0 } : PricedLine).pvpUnit
                 * ((3 : ℚ) * (inpBase.numCortinas : ℚ)) ∧
     ({ insumo := "CENEFA", unidad := "UND", cantidad := 3,
        pvpUnit := 0, precio := 0 } : PricedLine).precio = roundHalfEven 0) ∧
    subtotalBruto inpBase []
      = .ok ((([] : List (PricedLine × ℚ)).map Prod.snd).sum
             + (if aplicaMO inpBase then ((lineaMO inpBase).precio : ℚ) else 0)) :=
  ⟨c5_subtotal_acumulacion.1 inpBase itemCenefa _ 0 3 eval_cenefa resolver_cenefa,
   c5_subtotal_acumulacion.2 inpBase [] [] rfl⟩

/-- C8: an accessory BOM item flagged as requiring a user selection whose
supply name has no entry in the selection map does not make the calculator
fail: the line resolves with unit price 0 and line total 0. -/
theorem c8_sin_seleccion_precio_cero (inp : CurtainInput) (item : BomItem) (q : ℚ)
    (hdep : item.dependeDeSeleccion = true)
    (h1 : pyUpper item.insumo ≠ "TELA 1")
    (h2 : pyUpper item.insumo ≠ "TELA 2")
    (h3 : pyStartsWith (pyUpper item.insumo) "M.O" = false)
    (hsel : inp.insumosSeleccion item.insumo = none)
    (heval : evalRegla item.regla item.parametro inp.ancho inp.multiplicador = .ok q) :
    resolverLinea inp item
      = .ok (some ({ insumo := item.insumo, unidad := item.unidad,
                     cantidad := if item.unidad = "UND"
                       then ((roundHalfEven (q * (inp.numCortinas : ℚ)) : ℤ) : ℚ)
                       else round2 (q * (inp.numCortinas : ℚ)),
                     pvpUnit := 0, precio := 0 }, 0)) := by
  unfold resolverLinea
  rw [heval]
  dsimp only
  rw [if_neg h1, if_neg h2, if_neg (by simp [h3])]
  simp only [hsel]
  simp [mkLinea, roundHalfEven_zero]

theorem c8_testigo :
    resolverLinea inpBase itemCenefa
      = .ok (some ({ insumo := itemCenefa.insumo, unidad := itemCenefa.unidad,
                     cantidad := if itemCenefa.unidad = "UND"
                       then ((roundHalfEven ((3 : ℚ) * (inpBase.numCortinas : ℚ)) : ℤ) : ℚ)
                       else round2 ((3 : ℚ) * (inpBase.numCortinas : ℚ)),
                     pvpUnit := 0, precio := 0 }, 0)) :=
  c8_sin_seleccion_precio_cero inpBase itemCenefa 3 rfl (by decide) (by decide)
    (by decide) rfl eval_cenefa

/-- C9: every priced line stores its quantity rounded to two decimals for
continuous units and to the nearest whole number for the discrete unit
`UND`, and stores its unit price exactly as resolved, without rounding;
the labor line likewise stores `round(cant_mo, 2)` and the raw labor price. -/
theorem c9_redondeo_cantidades :
    (∀ (inp : CurtainInput) (item : BomItem) (l : PricedLine) (raw q : ℚ),
      evalRegla item.regla item.parametro inp.ancho inp.multiplicador = .ok q →
      resolverLinea inp item = .ok (some (l, raw)) →
      l.cantidad = (if l.unidad = "UND"
                    then ((roundHalfEven (q * (inp.numCortinas : ℚ)) : ℤ) : ℚ)
                    else round2 (q * (inp.numCortinas : ℚ))) ∧
      l.pvpUnit = precioResuelto inp item) ∧
    (∀ inp : CurtainInput, (lineaMO inp).cantidad = round2 (cantMO inp) ∧
      (lineaMO inp).pvpUnit = inp.moPvp.getD 0) := by
  constructor
  · intro inp item l raw q heval hres
    obtain ⟨hl, _⟩ := resolverLinea_ok_some inp item l raw q heval hres
    constructor
    · conv_lhs => rw [hl]
      rfl
    · conv_lhs => rw [hl]
      rfl
  · intro inp
    exact ⟨rfl, rfl⟩

theorem c9_testigo :
    ({ insumo := "CENEFA", unidad := "UND", cantidad := 3,
       pvpUnit := 0, precio := 0 } : PricedLine).cantidad
      = (if ({ insumo := "CENEFA", unidad := "UND", cantidad := 3,
               pvpUnit := 0, precio := 0 } : PricedLine).unidad = "UND"
         then ((roundHalfEven ((3 : ℚ) * (inpBase.numCortinas : ℚ)) : ℤ) : ℚ)
         else round2 ((3 : ℚ) * (inpBase.numCortinas : ℚ))) ∧
    ({ insumo := "CENEFA", unidad := "UND", cantidad := 3,
       pvpUnit := 0, precio := 0 } : PricedLine).pvpUnit
      = precioResuelto inpBase itemCenefa :=
  c9_redondeo_cantidades.1 inpBase itemCenefa _ 0 3 eval_cenefa resolver_cenefa

theorem foldl_add_eq_sum (f : PricedCurtain → ℤ) (cs : List PricedCurtain) :
    ∀ a : ℤ, cs.foldl (fun x c => x + f c) a = a + (cs.map f).sum := by
  induction cs with
  | nil => intro a; simp
  | cons hd tl ih =>
    intro a
    simp only [List.foldl_cons, List.map_cons, List.sum_cons, ih (a + f hd)]
    ring

theorem sum_subtotal_iva (cs : List PricedCurtain)
    (h : ∀ c ∈ cs, c.subtotal + c.iva = c.total) :
    (cs.map PricedCurtain.subtotal).sum + (cs.map PricedCurtain.iva).sum
      = (cs.map PricedCurtain.total).sum := by
  induction cs with
  | nil => simp
  | cons hd tl ih =>
    simp only [List.map_cons, List.sum_cons]
    have h1 := h hd (by simp)
    have h2 := ih (fun c hc => h c (by simp [hc]))
    omega

/-- C3 amended: the PDF export aggregates by pure summation over the stored
per-curtain figures (subtotal = sum of net subtotals, tax = sum of taxes,
total = sum of totals, with no re-rounding, so the components still add up
whenever each member's do), while the summary screen instead sums only the
totals and recomputes tax and subtotal from the aggregate:
`iva = (sum of totals) * 0.19` and `subtotal = (sum of totals) - iva`. -/
theorem c3_agregacion (cs : List PricedCurtain)
    (h : ∀ c ∈ cs, c.subtotal + c.iva = c.total) :
    totalesPdf cs = ((cs.map PricedCurtain.subtotal).sum,
                     (cs.map PricedCurtain.iva).sum,
                     (cs.map PricedCurtain.total).sum) ∧
    (totalesPdf cs).1 + (totalesPdf cs).2.1 = (totalesPdf cs).2.2 ∧
    totalesResumen cs
      = ((((cs.map PricedCurtain.total).sum : ℤ) : ℚ)
           - (((cs.map PricedCurtain.total).sum : ℤ) : ℚ) * IVA_PERCENT,
         (((cs.map PricedCurtain.total).sum : ℤ) : ℚ) * IVA_PERCENT,
         (cs.map PricedCurtain.total).sum) := by
  have hpdf : totalesPdf cs = ((cs.map PricedCurtain.subtotal).sum,
      (cs.map PricedCurtain.iva).sum, (cs.map PricedCurtain.total).sum) := by
    unfold totalesPdf
    rw [foldl_add_eq_sum PricedCurtain.subtotal cs 0,
        foldl_add_eq_sum PricedCurtain.iva cs 0,
        foldl_add_eq_sum PricedCurtain.total cs 0]
    simp
  refine ⟨hpdf, ?_, ?_⟩
  · rw [hpdf]
    exact sum_subtotal_iva cs h
  · unfold totalesResumen
    rw [foldl_add_eq_sum PricedCurtain.total cs 0]
    simp

theorem c3_agregacion_testigo :
    (totalesPdf [pcBase]).1 + (totalesPdf [pcBase]).2.1 = (totalesPdf [pcBase]).2.2 :=
  (c3_agregacion [pcBase] (by
    intro c hc
    simp only [List.mem_singleton] at hc
    subst hc
    decide)).2.1

/-- C3 counterexample: for the single-curtain list produced by the
calculator on `inpResumen` the summary screen shows tax 1.9 and subtotal
8.1, while the stored (summed) figures are tax 2 and net subtotal 8, so the
screen aggregation is not the claimed pure summation. -/
theorem c3_contraejemplo_resumen :
    calcularCotizacion inpResumen [] = .ok pcResumen ∧
    totalesResumen [pcResumen] = (81/10, 19/10, 10) ∧
    pcResumen.subtotal = 8 ∧ pcResumen.iva = 2 ∧
    ((19/10 : ℚ) ≠ ((2 : ℤ) : ℚ)) ∧ ((81/10 : ℚ) ≠ ((8 : ℤ) : ℚ)) := by
  refine ⟨calc_inpResumen, ?_, rfl, rfl, by norm_num, by norm_num⟩
  unfold totalesResumen
  norm_num [pcResumen, IVA_PERCENT]

/-- C4: the labor line (and only it) carries an `M.O` name; it is appended,
after all BOM lines, exactly when the design's labor price is strictly
positive, with quantity `ancho * multiplicador * num_cortinas` (displayed
rounded to 2 decimals) and the design's labor price as unit price; a design
with labor price 0 (or none) produces no labor line in the detail at all. -/
theorem c4_linea_mano_de_obra (inp : CurtainInput) (bom : List BomItem)
    (pares : List (PricedLine × ℚ)) (pc : PricedCurtain)
    (hp : procesarBOM inp bom = .ok pares)
    (h : calcularCotizacion inp bom = .ok pc) :
    (aplicaMO inp = true → pc.detalle = pares.map Prod.fst ++ [lineaMO inp]) ∧
    (aplicaMO inp = false → pc.detalle = pares.map Prod.fst) ∧
    (∀ l ∈ pares.map Prod.fst, esMO l = false) ∧
    esMO (lineaMO inp) = true ∧
    (lineaMO inp).cantidad
      = round2 (inp.ancho * inp.multiplicador * (inp.numCortinas : ℚ)) ∧
    (lineaMO inp).pvpUnit = inp.moPvp.getD 0 ∧
    (aplicaMO inp = true ↔ ∃ p, inp.moPvp = some p ∧ 0 < p) := by
  unfold calcularCotizacion at h
  rw [hp] at h
  simp only [Except.ok.injEq] at h
  subst h
  refine ⟨?_, ?_, ?_, ?_, rfl, rfl, ?_⟩
  · intro hm
    simp [hm]
  · intro hm
    simp [hm]
  · intro l hl
    obtain ⟨par, hpar, hfst⟩ := List.mem_map.mp hl
    obtain ⟨item, _, hres⟩ := procesarBOM_mem inp bom pares hp par hpar
    have := resolver_not_esMO inp item par.1 par.2 (by
      simpa using hres)
    simpa [hfst] using this
  · exact pyStartsWith_mo_mo inp.diseno
  · cases hmo : inp.moPvp with
    | none => simp [aplicaMO, hmo]
    | some p =>
      simp [aplicaMO, hmo]

theorem c4_testigo : esMO (lineaMO inpBase) = true :=
  (c4_linea_mano_de_obra inpBase [] [] pcBase rfl calc_inpBase).2.2.2.1

end TJM
